import Mathlib

/-!
Shallow embedding of the gig-scoring, pricing and market-analysis engine of
`ai_features.py` (`AIGigRecommender`, `SmartPricingEngine`, `MarketIntelligence`),
together with proofs about its specified behaviour.

Numbers are modelled as exact rationals (`ℚ`).  Decimal literals of the source
are written as the equal rational fractions (`0.25` becomes `25/100`, `3.5`
becomes `35/10`, and so on) because scientific-notation literals on `ℚ` are not
definitionally transparent in this library version, which would block concrete
evaluation.  Python's `round(x, d)` (and the `:.Nf` format specifiers) round to
the nearest multiple of `10^(-d)` with ties to even; this is modelled by
`rhe` / `pyRound`.  Python division raises `ZeroDivisionError` on a zero
denominator; every division of the source whose denominator is not a nonzero
constant is modelled by the checked division `pydiv`, and the per-gig scoring
pipeline is `Except`-valued accordingly.  Dictionary fields read with
`dict.get` are modelled as structure fields whose default is the `get` default
(numeric defaults are `0`; string-valued fields that are read with several
different defaults are `Option String`).
-/

/-- A Python runtime exception relevant to this module (`ZeroDivisionError`). -/
inductive PyExn : Type
| zeroDivision
deriving DecidableEq, Repr

instance {ε α : Type} [DecidableEq ε] [DecidableEq α] : DecidableEq (Except ε α) := fun a b =>
  match a, b with
  | .error e, .error f =>
    if h : e = f then .isTrue (by rw [h])
    else .isFalse (by intro hef; injection hef with h2; exact h h2)
  | .error _, .ok _ => .isFalse (by intro hef; injection hef)
  | .ok _, .error _ => .isFalse (by intro hef; injection hef)
  | .ok q, .ok r =>
    if h : q = r then .isTrue (by rw [h])
    else .isFalse (by intro hef; injection hef with h2; exact h h2)

/-- Python checked division: raises `ZeroDivisionError` on a zero denominator. -/
def pydiv (a b : ℚ) : Except PyExn ℚ :=
  if b = 0 then .error .zeroDivision else .ok (a / b)

/-- Round a rational to the nearest integer with ties to even
(the rounding used by Python's `round` builtin and `:.Nf` formatting). -/
def rhe (q : ℚ) : ℤ :=
  if q - ⌊q⌋ < 1/2 then ⌊q⌋
  else if (1:ℚ)/2 < q - ⌊q⌋ then ⌊q⌋ + 1
  else if ⌊q⌋ % 2 = 0 then ⌊q⌋ else ⌊q⌋ + 1

/-- Python's `round(q, d)`: round to `d` decimal places, ties to even. -/
def pyRound (d : ℕ) (q : ℚ) : ℚ :=
  (rhe (q * 10 ^ d) : ℚ) / 10 ^ d

/-- Render a natural number of cents as a decimal string, e.g. `143491 ↦ "1434.91"`. -/
def fmtCents (n : ℕ) : String :=
  toString (n / 100) ++ "." ++
    (if n % 100 < 10 then "0" ++ toString (n % 100) else toString (n % 100))

/-- Python's `f"{q:.2f}"` float formatting (two decimals, ties to even). -/
def fmt2 (q : ℚ) : String :=
  let c := rhe (q * 100)
  if c < 0 then "-" ++ fmtCents c.natAbs else fmtCents c.natAbs

/-- Python's `f"{q:.0f}"` float formatting (nearest integer, ties to even). -/
def fmt0 (q : ℚ) : String :=
  toString (rhe q)

/-- Python's `str.lower()`: character-wise lowercasing.  (The library's
`toLower` on strings is the same character-wise map but is defined by
well-founded recursion on byte positions and therefore never reduces
definitionally, so the embedding uses this structural definition.) -/
def pyLower (s : String) : String := String.mk (s.data.map Char.toLower)

/-- A gig record (a Python dict).  Numeric fields read via `dict.get(k, 0)` are
plain numbers whose value `0` stands for both an absent key and a stored `0`
(the source code treats the two identically, via truthiness tests); string
fields read with varying defaults are `Option String` (`none` = absent key). -/
structure Gig : Type where
  id : Option String := none
  title : Option String := none
  platform : Option String := none
  skills_required : List String := []
  budget_min : ℚ := 0
  budget_max : ℚ := 0
  project_type : Option String := none
  client_rating : ℚ := 0
  client_reviews : ℤ := 0
  proposals_count : ℕ := 0
deriving DecidableEq, Repr

/-- A user-profile record (a Python dict), with the `dict.get` defaults used in
`AIGigRecommender.__init__` and `SmartPricingEngine.calculate_optimal_price`. -/
structure UserProfile : Type where
  skills : List String := []
  hourly_rate_min : ℚ := 25
  hourly_rate_max : ℚ := 100
  years_experience : ℚ := 3
  success_rate : ℚ := 80
deriving DecidableEq, Repr

/-- The state an `AIGigRecommender` instance extracts from the profile in
`__init__`: lowercased skill set, rate range, experience, success rate (already
divided by 100). -/
structure AIGigRecommender : Type where
  user_skills : Finset String
  user_rate_min : ℚ
  user_rate_max : ℚ
  user_experience : ℚ
  success_rate : ℚ
deriving DecidableEq

/-- `AIGigRecommender.__init__`. -/
def AIGigRecommender.init (p : UserProfile) : AIGigRecommender :=
  { user_skills := (p.skills.map pyLower).toFinset
    user_rate_min := p.hourly_rate_min
    user_rate_max := p.hourly_rate_max
    user_experience := p.years_experience
    success_rate := p.success_rate / 100 }

/-- The result dataclass `GigRecommendation`. -/
structure GigRecommendation : Type where
  gig_id : String
  title : String
  platform : String
  recommendation_score : ℚ
  win_probability : ℚ
  optimal_bid_amount : ℚ
  reasoning : List String
  risk_level : String
  estimated_competition : ℕ
  client_quality_score : ℚ
  suggested_approach : String
deriving DecidableEq, Repr

/-- `AIGigRecommender._calculate_skill_match` (lines 194-208). -/
def AIGigRecommender.calculate_skill_match (rec : AIGigRecommender) (gig : Gig) : ℚ :=
  let required_skills := (gig.skills_required.map pyLower).toFinset
  if required_skills = ∅ then 5/10
  else
    let matched := (rec.user_skills ∩ required_skills).card
    let total := required_skills.card
    let bonus := min (2/10) (((rec.user_skills \ required_skills).card : ℚ) * (5/100))
    let base_score := if 0 < total then (matched : ℚ) / (total : ℚ) else 0
    min 1 (base_score + bonus)

/-- `AIGigRecommender._calculate_rate_compatibility` (lines 210-233); the two
divisions with non-constant denominators are checked, since Python raises
`ZeroDivisionError` there. -/
def AIGigRecommender.calculate_rate_compatibility (rec : AIGigRecommender) (gig : Gig) :
    Except PyExn ℚ :=
  if gig.budget_max = 0 then .ok (5/10)
  else
    let estimated_hourly :=
      if gig.project_type = some "fixed" then gig.budget_max / 40 else gig.budget_max
    if estimated_hourly < rec.user_rate_min then
      (pydiv estimated_hourly rec.user_rate_min).map (fun q => max 0 q)
    else if estimated_hourly > rec.user_rate_max then .ok 1
    else
      (pydiv (estimated_hourly - rec.user_rate_min)
          (rec.user_rate_max - rec.user_rate_min)).map (fun q => 8/10 + (2/10) * q)

/-- `AIGigRecommender._estimate_client_quality` (lines 235-256). -/
def AIGigRecommender.estimate_client_quality (gig : Gig) : ℚ :=
  let rating := gig.client_rating
  let reviews := gig.client_reviews
  let base_score := if rating ≠ 0 then (rating - 35/10) / (15/10) else 5/10
  let reliability_bonus : ℚ :=
    if reviews > 50 then 1/10
    else if reviews > 20 then 5/100
    else if reviews < 5 then -(1/10)
    else 0
  max 0 (min 1 (base_score + reliability_bonus))

/-- `AIGigRecommender._estimate_competition` (lines 258-269); Python's `int()`
truncation of a nonnegative float is `Int.toNat ∘ Int.floor`. -/
def AIGigRecommender.estimate_competition (rec : AIGigRecommender) (gig : Gig) :
    Except PyExn ℕ := do
  let proposals := gig.proposals_count
  let skill_match := rec.calculate_skill_match gig
  let rate_match ← rec.calculate_rate_compatibility gig
  let multiplier : ℚ := if skill_match > 7/10 ∧ rate_match > 7/10 then 15/10 else 1
  pure (Int.toNat ⌊(proposals : ℚ) * multiplier⌋)

/-- `AIGigRecommender._predict_win_probability` (lines 271-301). -/
def AIGigRecommender.predict_win_probability (rec : AIGigRecommender) (_gig : Gig)
    (skill_match : ℚ) (competition : ℕ) : ℚ :=
  let base_prob := skill_match * (4/10)
  let competition_factor : ℚ :=
    if competition < 5 then 3/10
    else if competition < 10 then 2/10
    else if competition < 20 then 1/10
    else 5/100
  let success_factor := rec.success_rate * (2/10)
  let exp_factor := min (1/10) (rec.user_experience / 100)
  let total_prob := base_prob + competition_factor + success_factor + exp_factor
  min (95/100) (max (5/100) total_prob)

/-- `AIGigRecommender._calculate_optimal_bid` (lines 303-334). -/
def AIGigRecommender.calculate_optimal_bid (rec : AIGigRecommender) (gig : Gig)
    (win_prob : ℚ) : ℚ :=
  let budget_max := gig.budget_max
  let budget_min := gig.budget_min
  if budget_max = 0 then rec.user_rate_min
  else
    let optimal :=
      if win_prob > 7/10 then budget_min + (budget_max - budget_min) * (3/10)
      else if win_prob > 5/10 then budget_min + (budget_max - budget_min) * (5/10)
      else budget_min + (budget_max - budget_min) * (7/10)
    let hourly_equivalent :=
      if gig.project_type = some "fixed" then optimal / 40 else optimal
    if hourly_equivalent < rec.user_rate_min then
      (if gig.project_type = some "fixed" then rec.user_rate_min * 40 else rec.user_rate_min)
    else pyRound 2 optimal

/-- The weight dictionary of `AIGigRecommender._calculate_recommendation_score`. -/
structure RecommendationWeights : Type where
  skill_match : ℚ
  rate_match : ℚ
  client_quality : ℚ
  win_probability : ℚ
  competition : ℚ
deriving DecidableEq, Repr

/-- The `weights` dict literal of lines 341-347. -/
def recWeights : RecommendationWeights :=
  { skill_match := 25/100
    rate_match := 20/100
    client_quality := 20/100
    win_probability := 25/100
    competition := 10/100 }

/-- `AIGigRecommender._calculate_recommendation_score` (lines 336-360). -/
def AIGigRecommender.calculate_recommendation_score (skill_match rate_match : ℚ)
    (client_quality : ℚ) (competition : ℕ) (win_prob : ℚ) : ℚ :=
  let competition_score := max 0 (1 - (competition : ℚ) / 50)
  let score :=
    recWeights.skill_match * skill_match +
    recWeights.rate_match * rate_match +
    recWeights.client_quality * client_quality +
    recWeights.win_probability * win_prob +
    recWeights.competition * competition_score
  pyRound 3 score

/-- `AIGigRecommender._generate_reasoning` (lines 362-400). -/
def AIGigRecommender.generate_reasoning (_gig : Gig) (skill_match rate_match : ℚ)
    (client_quality : ℚ) (competition : ℕ) (win_prob : ℚ) : List String :=
  (if skill_match ≥ 8/10 then
    ["✅ Excellent skill match (" ++ fmt0 (skill_match * 100) ++ "%)"]
   else if skill_match ≥ 6/10 then
    ["👍 Good skill match (" ++ fmt0 (skill_match * 100) ++ "%)"]
   else
    ["⚠️ Moderate skill match (" ++ fmt0 (skill_match * 100) ++ "%)"]) ++
  (if rate_match ≥ 8/10 then ["💰 Excellent budget alignment"]
   else if rate_match < 5/10 then ["⚠️ Budget below your target rate"]
   else []) ++
  (if client_quality ≥ 8/10 then ["⭐ High-quality client with good reviews"]
   else if client_quality < 5/10 then ["⚠️ Limited client history or low ratings"]
   else []) ++
  (if competition < 5 then ["🎯 Low competition - great opportunity!"]
   else if competition > 20 then ["⚠️ High competition - may be challenging"]
   else []) ++
  (if win_prob ≥ 7/10 then
    ["📈 High win probability (" ++ fmt0 (win_prob * 100) ++ "%)"]
   else if win_prob < 3/10 then
    ["📉 Lower win probability (" ++ fmt0 (win_prob * 100) ++ "%)"]
   else [])

/-- `AIGigRecommender._assess_risk_level` (lines 402-419). -/
def AIGigRecommender.assess_risk_level (client_quality : ℚ) (competition : ℕ)
    (win_prob : ℚ) : String :=
  let risk_score : ℕ :=
    (if client_quality < 5/10 then 2 else 0) +
    (if competition > 20 then 2 else 0) +
    (if win_prob < 3/10 then 1 else 0)
  if risk_score ≥ 4 then "high"
  else if risk_score ≥ 2 then "medium"
  else "low"

/-- `AIGigRecommender._suggest_approach` (lines 421-430). -/
def AIGigRecommender.suggest_approach (_gig : Gig) (win_prob : ℚ) (competition : ℕ) :
    String :=
  if win_prob > 7/10 ∧ competition < 10 then
    "Submit a strong proposal highlighting your expertise. You have a great chance!"
  else if win_prob > 5/10 then
    "Emphasize your unique value proposition and relevant experience."
  else if competition > 20 then
    "Differentiate yourself with a unique approach or special offer. Consider a competitive rate."
  else
    "This is competitive. Focus on demonstrating clear ROI and past results."

/-- The body of the per-gig `try` block of `AIGigRecommender.recommend_gigs`
(lines 140-183): the full scoring pipeline for one gig, in source order; a
`ZeroDivisionError` anywhere in it aborts this gig's `GigRecommendation`. -/
def AIGigRecommender.scoreGig (rec : AIGigRecommender) (gig : Gig) :
    Except PyExn GigRecommendation := do
  let skill_match := rec.calculate_skill_match gig
  let rate_match ← rec.calculate_rate_compatibility gig
  let client_quality := AIGigRecommender.estimate_client_quality gig
  let competition ← rec.estimate_competition gig
  let win_prob := rec.predict_win_probability gig skill_match competition
  let optimal_bid := rec.calculate_optimal_bid gig win_prob
  let rec_score := AIGigRecommender.calculate_recommendation_score
    skill_match rate_match client_quality competition win_prob
  let reasoning := AIGigRecommender.generate_reasoning gig
    skill_match rate_match client_quality competition win_prob
  let risk_level := AIGigRecommender.assess_risk_level client_quality competition win_prob
  let approach := AIGigRecommender.suggest_approach gig win_prob competition
  pure
    { gig_id := gig.id.getD ""
      title := gig.title.getD ""
      platform := gig.platform.getD ""
      recommendation_score := rec_score
      win_probability := win_prob
      optimal_bid_amount := optimal_bid
      reasoning := reasoning
      risk_level := risk_level
      estimated_competition := competition
      client_quality_score := client_quality
      suggested_approach := approach }

/-- The recommendations that survive the per-gig `try`/`except` of
`recommend_gigs`: a failed gig is skipped and the loop continues. -/
def AIGigRecommender.scored (rec : AIGigRecommender) (available_gigs : List Gig) :
    List GigRecommendation :=
  available_gigs.filterMap (fun gig => (rec.scoreGig gig).toOption)

/-- The (stable, descending-by-score) comparison used by
`recommendations.sort(key=lambda x: x.recommendation_score, reverse=True)`. -/
def recLE (a b : GigRecommendation) : Bool :=
  b.recommendation_score ≤ a.recommendation_score

/-- `AIGigRecommender.recommend_gigs` (lines 125-192): score every gig,
skipping the ones that raise, sort by score descending (Python's sort is
stable), and truncate to the first `top_n`. -/
def AIGigRecommender.recommend_gigs (rec : AIGigRecommender) (available_gigs : List Gig)
    (top_n : ℕ := 10) : List GigRecommendation :=
  ((rec.scored available_gigs).mergeSort recLE).take top_n

/-- The `factors` sub-dict of `SmartPricingEngine.calculate_optimal_price`. -/
structure PricingFactors : Type where
  competition_level : String
  skill_premium : ℚ
  success_rate_factor : ℚ
deriving DecidableEq, Repr

/-- The dict returned by `SmartPricingEngine.calculate_optimal_price`. -/
structure PricingRecommendation : Type where
  optimal_price : ℚ
  conservative_price : ℚ
  aggressive_price : ℚ
  recommended_strategy : String
  factors : PricingFactors
  confidence : String
deriving DecidableEq, Repr

/-- The `premium_skills` lookup table of `SmartPricingEngine._calculate_skill_premium`
(lines 525-531). -/
def premiumSkills (s : String) : Option ℚ :=
  if s = "ai" then some (13/10)
  else if s = "ml" then some (13/10)
  else if s = "machine learning" then some (13/10)
  else if s = "blockchain" then some (125/100)
  else if s = "solidity" then some (125/100)
  else if s = "rust" then some (12/10)
  else if s = "go" then some (115/100)
  else if s = "react native" then some (115/100)
  else if s = "flutter" then some (115/100)
  else if s = "devops" then some (11/10)
  else if s = "kubernetes" then some (115/100)
  else none

/-- `SmartPricingEngine._calculate_skill_premium` (lines 522-539). -/
def SmartPricingEngine.calculate_skill_premium (skills : List String) : ℚ :=
  skills.foldl
    (fun max_premium skill =>
      match premiumSkills (pyLower skill) with
      | some p => max max_premium p
      | none => max_premium)
    1

/-- `SmartPricingEngine._generate_pricing_strategy` (lines 541-552). -/
def SmartPricingEngine.generate_pricing_strategy (optimal _min_budget max_budget : ℚ)
    (competition : ℕ) (success_rate : ℚ) : String :=
  if competition < 5 ∧ success_rate > 8/10 then
    "Premium Strategy: Bid $" ++ fmt2 optimal ++
      " - you\x27re in a strong position with low competition"
  else if competition > 20 then
    "Competitive Strategy: Bid $" ++ fmt2 optimal ++
      " to stand out, but emphasize value over price"
  else if optimal > max_budget * (105/100) then
    "Value Strategy: Bid $" ++ fmt2 optimal ++ " and justify premium with ROI demonstration"
  else
    "Balanced Strategy: Bid $" ++ fmt2 optimal ++ " - competitive yet profitable"

/-- `SmartPricingEngine._calculate_pricing_confidence` (lines 554-561). -/
def SmartPricingEngine.calculate_pricing_confidence (budget : ℚ) (competition : ℕ) :
    String :=
  if budget ≠ 0 ∧ competition < 15 then "high"
  else if budget ≠ 0 ∨ competition < 25 then "medium"
  else "low"

/-- The optimal price computed by `SmartPricingEngine.calculate_optimal_price`
(lines 457-498) before the final `round(. , 2)`: base price times the
competition, success-rate and skill multipliers, clamped into
`[budget_min, budget_max*1.1]` when a budget is known, then floored at the
profile's minimum rate. -/
def SmartPricingEngine.optimalPriceRaw (gig : Gig) (user_profile : UserProfile) : ℚ :=
  let budget_min := gig.budget_min
  let budget_max := gig.budget_max
  let competition := gig.proposals_count
  let user_rate_min := user_profile.hourly_rate_min
  let success_rate := user_profile.success_rate / 100
  let base_price := if budget_max ≠ 0 then (budget_min + budget_max) / 2 else user_rate_min
  let competition_multiplier : ℚ :=
    if competition < 5 then 115/100
    else if competition > 20 then 90/100
    else 1
  let success_multiplier := 95/100 + success_rate * (15/100)
  let skill_multiplier := SmartPricingEngine.calculate_skill_premium gig.skills_required
  let optimal_price := base_price * competition_multiplier * success_multiplier * skill_multiplier
  let optimal_price :=
    if budget_max ≠ 0 then max (min optimal_price (budget_max * (11/10))) budget_min
    else optimal_price
  max optimal_price user_rate_min

/-- `SmartPricingEngine.calculate_optimal_price` (lines 444-520): the returned
dict (all divisions in it have nonzero constant denominators, so it is total). -/
def SmartPricingEngine.calculate_optimal_price (gig : Gig) (user_profile : UserProfile) :
    PricingRecommendation :=
  let competition := gig.proposals_count
  let success_rate := user_profile.success_rate / 100
  let success_multiplier := 95/100 + success_rate * (15/100)
  let skill_multiplier := SmartPricingEngine.calculate_skill_premium gig.skills_required
  let optimal_price := SmartPricingEngine.optimalPriceRaw gig user_profile
  let strategy := SmartPricingEngine.generate_pricing_strategy optimal_price
    gig.budget_min gig.budget_max competition success_rate
  let conservative_price := optimal_price * (9/10)
  let aggressive_price := optimal_price * (11/10)
  { optimal_price := pyRound 2 optimal_price
    conservative_price := pyRound 2 conservative_price
    aggressive_price := pyRound 2 aggressive_price
    recommended_strategy := strategy
    factors :=
      { competition_level :=
          if competition < 5 then "low" else if competition > 20 then "high" else "medium"
        skill_premium := pyRound 1 ((skill_multiplier - 1) * 100)
        success_rate_factor := pyRound 1 ((success_multiplier - 1) * 100) }
    confidence := SmartPricingEngine.calculate_pricing_confidence gig.budget_max competition }

/-- The dataclass `MarketInsight`. -/
structure MarketInsight : Type where
  skill : String
  demand_score : ℚ
  average_rate : ℚ
  rate_trend : String
  competition_level : String
  growth_projection : ℚ
  top_platforms : List String
  recommended_action : String
deriving DecidableEq, Repr

/-- `MarketIntelligence.analyze_skill_demand` (lines 574-655).  The platform
tally is a Python dict keyed in first-seen order; `sorted(..., reverse=True)`
is stable, hence `mergeSort`.  Every division in the matched branch has a
provably nonzero denominator, so the function is total. -/
def MarketIntelligence.analyze_skill_demand (skill : String) (gigs : List Gig) :
    MarketInsight :=
  let relevant_gigs := gigs.filter
    (fun gig => (gig.skills_required.map pyLower).contains (pyLower skill))
  if relevant_gigs.isEmpty then
    { skill := skill
      demand_score := 0
      average_rate := 0
      rate_trend := "unknown"
      competition_level := "unknown"
      growth_projection := 0
      top_platforms := []
      recommended_action := "No recent data for " ++ skill }
  else
    let total_gigs := gigs.length
    let skill_gigs := relevant_gigs.length
    let demand_score := min 1 ((skill_gigs : ℚ) / ((max 1 total_gigs : ℕ) : ℚ) * 10)
    let rates := relevant_gigs.filterMap
      (fun gig =>
        if gig.budget_max ≠ 0 then
          some (if gig.project_type = some "fixed" then gig.budget_max / 40 else gig.budget_max)
        else none)
    let avg_rate := if ¬ rates.isEmpty then rates.sum / (rates.length : ℚ) else 0
    let platformKeys := relevant_gigs.foldl
      (fun acc gig =>
        let p := gig.platform.getD "unknown"
        if acc.contains p then acc else acc ++ [p])
      []
    let platform_counts := platformKeys.map
      (fun p => (p, (relevant_gigs.filter (fun gig => gig.platform.getD "unknown" = p)).length))
    let top_platforms :=
      ((platform_counts.mergeSort (fun a b => b.2 ≤ a.2)).take 3).map Prod.fst
    let avg_proposals :=
      ((relevant_gigs.map (fun gig => (gig.proposals_count : ℚ))).sum) /
        (relevant_gigs.length : ℚ)
    let competition :=
      if avg_proposals < 10 then "low"
      else if avg_proposals < 20 then "medium"
      else "high"
    let recommendation :=
      if demand_score > 7/10 ∧ avg_rate > 60 then
        "🔥 " ++ skill ++ " is in high demand! Consider specializing or increasing rates."
      else if demand_score > 5/10 then
        "✅ " ++ skill ++ " has solid demand. Good skill to maintain."
      else
        "⚠️ " ++ skill ++ " has lower demand. Consider diversifying."
    { skill := skill
      demand_score := pyRound 3 demand_score
      average_rate := pyRound 2 avg_rate
      rate_trend := "stable"
      competition_level := competition
      growth_projection := 0
      top_platforms := top_platforms
      recommended_action := recommendation }

/-- Modelled from the spec (§4.2, `rate_match`): the closed-form
rate-compatibility formula as the spec states it, written independently of the
source so that the source's `calculate_rate_compatibility` can be compared
against it. -/
def rate_match_spec (rate_min rate_max : ℚ) (gig : Gig) : ℚ :=
  if gig.budget_max = 0 then 5/10
  else
    let effective :=
      if gig.project_type = some "fixed" then gig.budget_max / 40 else gig.budget_max
    if effective < rate_min then max 0 (effective / rate_min)
    else if effective > rate_max then 1
    else 8/10 + (2/10) * ((effective - rate_min) / (rate_max - rate_min))

/-! ### Concrete fixtures used by witnesses and counterexamples -/

/-- A profile whose recommender has the default rate range `25..100`. -/
def profDefaultRates : UserProfile := { skills := ["python"] }

/-- Recommender for `profDefaultRates`. -/
def recDefaultRates : AIGigRecommender := AIGigRecommender.init profDefaultRates

/-- A well-matched hourly gig (id "A"). -/
def gigA : Gig :=
  { id := some "A", skills_required := ["python"], budget_max := 50
    client_rating := 5, client_reviews := 30 }

/-- A poorly matched gig (id "B") that still scores without error. -/
def gigB : Gig := { id := some "B", skills_required := ["java"], proposals_count := 100 }

/-- A profile with a degenerate rate range `rate_min = rate_max = 40`. -/
def profEqRates : UserProfile :=
  { skills := ["python"], hourly_rate_min := 40, hourly_rate_max := 40 }

/-- Recommender for `profEqRates`. -/
def recEqRates : AIGigRecommender := AIGigRecommender.init profEqRates

/-- An hourly gig whose effective rate `40` hits the degenerate bound of
`profEqRates`, so scoring it divides by `rate_max - rate_min = 0`. -/
def gigRaising : Gig := { id := some "bad", budget_max := 40 }

/-- A fixed-price gig whose effective hourly rate is `1600/40 = 40`. -/
def gigFixed1600 : Gig := { budget_max := 1600, project_type := some "fixed" }

/-- An hourly gig scoring fine against `profEqRates` (effective rate `50 > 40`). -/
def gigOk : Gig :=
  { id := some "A", skills_required := ["python"], budget_max := 50
    client_rating := 48/10, client_reviews := 30 }

/-- The recommendation `scoreGig` produces for `gigOk` under `recEqRates`. -/
def gigOkRec : GigRecommendation :=
  { gig_id := "A"
    title := ""
    platform := ""
    recommendation_score := 239/250
    win_probability := 89/100
    optimal_bid_amount := 40
    reasoning := ["✅ Excellent skill match (100%)", "💰 Excellent budget alignment",
      "⭐ High-quality client with good reviews", "🎯 Low competition - great opportunity!",
      "📈 High win probability (89%)"]
    risk_level := "low"
    estimated_competition := 0
    client_quality_score := 11/12
    suggested_approach := "Submit a strong proposal highlighting your expertise. You have a great chance!" }

/-- `gigOk` with a different id (and otherwise identical fields), so it scores
identically but yields a distinguishable recommendation. -/
def gigOk2 : Gig := { gigOk with id := some "B" }

/-- The recommendation `scoreGig` produces for `gigOk2` under `recEqRates`:
the same scores as `gigOkRec`, with gig id "B". -/
def gigOkRec2 : GigRecommendation := { gigOkRec with gig_id := "B" }

/-- A recommender with `rate_min = 0 < 1 = rate_max`. -/
def recZeroMin : AIGigRecommender :=
  AIGigRecommender.init { hourly_rate_min := 0, hourly_rate_max := 1 }

/-- A gig with a (nonsensical but representable) negative budget. -/
def gigNegBudget : Gig := { budget_max := -1 }

/-- The gig of the spec's concrete pricing example (§8). -/
def gigPricing : Gig := { budget_min := 800, budget_max := 1500, proposals_count := 3 }

/-- The profile of the spec's concrete pricing example (`success_rate = 0.9`,
default rates `25..100`). -/
def profPricing : UserProfile := { success_rate := 90 }

/-- Same as `profPricing` but with a floor rate above `budget_max * 1.1`. -/
def profHighFloor : UserProfile := { success_rate := 90, hourly_rate_min := 2000 }

/-- A gig requiring only `python`, used as a corpus with no `rust` gigs. -/
def gigPythonOnly : Gig := { skills_required := ["python"], platform := some "upwork" }

/-- A one-skill profile with mixed-case spelling. -/
def profPy : UserProfile := { skills := ["Python"] }

/-- A gig requiring two skills. -/
def gigPyMl : Gig := { skills_required := ["python", "ml"] }

/-- The profile of the spec's worked example (§8): rate range `50..100`. -/
def profFifty : UserProfile := { hourly_rate_min := 50 }

/-- Recommender for `profFifty`. -/
def recFifty : AIGigRecommender := AIGigRecommender.init profFifty

/-- The gig of the spec's worked example (§8): fixed-price, budget 3200
(effective hourly rate 80). -/
def gigFixed3200 : Gig := { budget_max := 3200, project_type := some "fixed" }

/-! ### General lemmas: options, ties-to-even rounding, clamping -/

theorem optNoneNeSome {α : Type} (x : α) : ((none : Option α) = some x) = False := by
  simp

theorem floor_le_rhe (q : ℚ) : ⌊q⌋ ≤ rhe q := by
  unfold rhe
  split_ifs <;> omega

theorem rhe_le_floor_add_one (q : ℚ) : rhe q ≤ ⌊q⌋ + 1 := by
  unfold rhe
  split_ifs <;> omega

theorem rhe_ge_sub_half (q : ℚ) : q - 1/2 ≤ (rhe q : ℚ) := by
  have hf := Int.floor_le q
  have hc := Int.lt_floor_add_one q
  unfold rhe
  split_ifs with h1 h2 h3 <;> push_cast <;> linarith

theorem rhe_le_add_half (q : ℚ) : (rhe q : ℚ) ≤ q + 1/2 := by
  have hf := Int.floor_le q
  have hc := Int.lt_floor_add_one q
  unfold rhe
  split_ifs with h1 h2 h3 <;> push_cast <;> linarith

theorem rhe_le_int {q : ℚ} {B : ℤ} (h : q ≤ (B : ℚ)) : rhe q ≤ B := by
  have hfB : ⌊q⌋ ≤ B := by
    have h2 := Int.floor_le_floor h
    simpa [Int.floor_intCast] using h2
  have hf := Int.floor_le q
  unfold rhe
  split_ifs with h1 h2 h3
  · exact hfB
  · have hq : ((⌊q⌋ : ℚ)) + 1/2 < q := by linarith
    have h4 : ((⌊q⌋ : ℚ)) < (B : ℚ) := by linarith
    have h5 : ⌊q⌋ < B := by exact_mod_cast h4
    omega
  · exact hfB
  · have hq : ((⌊q⌋ : ℚ)) + 1/2 ≤ q := by linarith
    have h4 : ((⌊q⌋ : ℚ)) < (B : ℚ) := by linarith
    have h5 : ⌊q⌋ < B := by exact_mod_cast h4
    omega

theorem int_le_rhe {A : ℤ} {q : ℚ} (h : (A : ℚ) ≤ q) : A ≤ rhe q :=
  le_trans (Int.le_floor.mpr h) (floor_le_rhe q)

theorem pyRound_le_int (d : ℕ) {q : ℚ} {B : ℤ} (h : q ≤ (B : ℚ)) : pyRound d q ≤ (B : ℚ) := by
  unfold pyRound
  have hp : (0 : ℚ) < 10 ^ d := by positivity
  rw [div_le_iff₀ hp]
  have hmul : q * 10 ^ d ≤ ((B * 10 ^ d : ℤ) : ℚ) := by
    push_cast
    exact mul_le_mul_of_nonneg_right h (le_of_lt hp)
  have h2 := rhe_le_int hmul
  calc ((rhe (q * 10 ^ d) : ℤ) : ℚ) ≤ ((B * 10 ^ d : ℤ) : ℚ) := by exact_mod_cast h2
  _ = (B : ℚ) * 10 ^ d := by push_cast; ring

theorem int_le_pyRound (d : ℕ) {q : ℚ} {A : ℤ} (h : (A : ℚ) ≤ q) : (A : ℚ) ≤ pyRound d q := by
  unfold pyRound
  have hp : (0 : ℚ) < 10 ^ d := by positivity
  rw [le_div_iff₀ hp]
  have hmul : ((A * 10 ^ d : ℤ) : ℚ) ≤ q * 10 ^ d := by
    push_cast
    exact mul_le_mul_of_nonneg_right h (le_of_lt hp)
  have h2 := int_le_rhe hmul
  calc (A : ℚ) * 10 ^ d = ((A * 10 ^ d : ℤ) : ℚ) := by push_cast; ring
  _ ≤ ((rhe (q * 10 ^ d) : ℤ) : ℚ) := by exact_mod_cast h2

theorem pyRound2_ge (q : ℚ) : q - 1/200 ≤ pyRound 2 q := by
  unfold pyRound
  rw [le_div_iff₀ (by positivity : (0:ℚ) < 10 ^ 2)]
  have h := rhe_ge_sub_half (q * 10 ^ 2)
  nlinarith [h]

theorem pyRound2_le (q : ℚ) : pyRound 2 q ≤ q + 1/200 := by
  unfold pyRound
  rw [div_le_iff₀ (by positivity : (0:ℚ) < 10 ^ 2)]
  have h := rhe_le_add_half (q * 10 ^ 2)
  nlinarith [h]

theorem pyRound_unit_bounds (d : ℕ) {q : ℚ} (h0 : 0 ≤ q) (h1 : q ≤ 1) :
    0 ≤ pyRound d q ∧ pyRound d q ≤ 1 := by
  have ha : ((0 : ℤ) : ℚ) ≤ q := by exact_mod_cast h0
  have hb : q ≤ ((1 : ℤ) : ℚ) := by exact_mod_cast h1
  have h2 := int_le_pyRound d ha
  have h3 := pyRound_le_int d hb
  constructor
  · exact_mod_cast h2
  · exact_mod_cast h3

theorem clamp_bounds (o bmin c rmin : ℚ) (h1 : bmin ≤ c) (h2 : rmin ≤ c) :
    bmin ≤ max (max (min o c) bmin) rmin ∧
    max (max (min o c) bmin) rmin ≤ c ∧
    rmin ≤ max (max (min o c) bmin) rmin :=
  ⟨le_max_of_le_left (le_max_right _ _),
   max_le (max_le (min_le_right _ _) h1) h2,
   le_max_right _ _⟩

/-! ### Lemmas about the individual scoring functions -/

theorem skill_match_of_empty (rec : AIGigRecommender) (gig : Gig)
    (hR : (gig.skills_required.map pyLower).toFinset = ∅) :
    rec.calculate_skill_match gig = 5/10 := by
  simp [AIGigRecommender.calculate_skill_match, hR]

theorem skill_match_formula (p : UserProfile) (gig : Gig)
    (hR : (gig.skills_required.map pyLower).toFinset ≠ ∅) :
    (AIGigRecommender.init p).calculate_skill_match gig =
      min 1 ((((p.skills.map pyLower).toFinset ∩
          (gig.skills_required.map pyLower).toFinset).card : ℚ) /
          ((gig.skills_required.map pyLower).toFinset.card : ℚ) +
        min (2/10) ((((p.skills.map pyLower).toFinset \
          (gig.skills_required.map pyLower).toFinset).card : ℚ) * (5/100))) := by
  have hc : 0 < (gig.skills_required.map pyLower).toFinset.card :=
    Finset.card_pos.mpr (Finset.nonempty_iff_ne_empty.mpr hR)
  simp only [AIGigRecommender.calculate_skill_match, AIGigRecommender.init]
  rw [if_neg hR, if_pos hc]

theorem rateCompat_eq_spec (rec : AIGigRecommender) (gig : Gig)
    (hlt : rec.user_rate_min < rec.user_rate_max) (hb : 0 ≤ gig.budget_max) :
    rec.calculate_rate_compatibility gig =
      Except.ok (rate_match_spec rec.user_rate_min rec.user_rate_max gig) := by
  simp only [AIGigRecommender.calculate_rate_compatibility, rate_match_spec]
  by_cases hz : gig.budget_max = 0
  · simp [hz]
  · have hbm : 0 < gig.budget_max := lt_of_le_of_ne hb (Ne.symm hz)
    simp only [if_neg hz]
    set e := if gig.project_type = some "fixed" then gig.budget_max / 40 else gig.budget_max
      with hedef
    have he : 0 < e := by
      rw [hedef]
      split_ifs
      · exact div_pos hbm (by norm_num)
      · exact hbm
    by_cases h1 : e < rec.user_rate_min
    · have hrm : rec.user_rate_min ≠ 0 := ne_of_gt (lt_trans he h1)
      simp [if_pos h1, pydiv, hrm, Except.map]
    · simp only [if_neg h1]
      by_cases h2 : e > rec.user_rate_max
      · simp [if_pos h2]
      · have hd : rec.user_rate_max - rec.user_rate_min ≠ 0 :=
          sub_ne_zero.mpr (ne_of_gt hlt)
        simp [if_neg h2, pydiv, hd, Except.map]

theorem rate_match_spec_bounds (rate_min rate_max : ℚ) (gig : Gig)
    (hlt : rate_min < rate_max) (hb : 0 ≤ gig.budget_max) :
    0 ≤ rate_match_spec rate_min rate_max gig ∧ rate_match_spec rate_min rate_max gig ≤ 1 := by
  simp only [rate_match_spec]
  by_cases hz : gig.budget_max = 0
  · simp [hz]
    norm_num
  · have hbm : 0 < gig.budget_max := lt_of_le_of_ne hb (Ne.symm hz)
    simp only [if_neg hz]
    set e := if gig.project_type = some "fixed" then gig.budget_max / 40 else gig.budget_max
      with hedef
    have he : 0 < e := by
      rw [hedef]
      split_ifs
      · exact div_pos hbm (by norm_num)
      · exact hbm
    by_cases h1 : e < rate_min
    · have hrm : 0 < rate_min := lt_trans he h1
      simp only [if_pos h1]
      constructor
      · exact le_max_of_le_left (by norm_num)
      · refine max_le (by norm_num) ?_
        rw [div_le_one hrm]
        exact le_of_lt h1
    · simp only [if_neg h1]
      by_cases h2 : e > rate_max
      · simp only [if_pos h2]
        norm_num
      · simp only [if_neg h2]
        push_neg at h1 h2
        have hd : 0 < rate_max - rate_min := sub_pos.mpr hlt
        have ht0 : 0 ≤ (e - rate_min) / (rate_max - rate_min) :=
          div_nonneg (by linarith) (le_of_lt hd)
        have ht1 : (e - rate_min) / (rate_max - rate_min) ≤ 1 := by
          rw [div_le_one hd]
          linarith
        constructor <;> [linarith; linarith]

/-! ### Concrete evaluations of the scoring pipeline on the fixtures.
`Rat` arithmetic is not definitionally transparent in this library version, so
these are established with `norm_num`/`simp`, stage by stage. -/

theorem hne_gigOk : ¬ ((gigOk.skills_required.map pyLower).toFinset = (∅ : Finset String)) :=
  of_decide_eq_true (Eq.refl true)

theorem hrm_gigOk : recEqRates.calculate_rate_compatibility gigOk = .ok 1 := by
  norm_num [AIGigRecommender.calculate_rate_compatibility, recEqRates, AIGigRecommender.init,
    profEqRates, gigOk, pydiv, optNoneNeSome]

theorem hsm_gigOk : recEqRates.calculate_skill_match gigOk = 1 := by
  simp only [AIGigRecommender.calculate_skill_match, if_neg hne_gigOk]
  rw [show (gigOk.skills_required.map pyLower).toFinset.card = 1 from rfl]
  rw [show (recEqRates.user_skills ∩ (gigOk.skills_required.map pyLower).toFinset).card = 1
    from rfl]
  rw [show (recEqRates.user_skills \ (gigOk.skills_required.map pyLower).toFinset).card = 0
    from rfl]
  norm_num [min_def]

theorem hcq_gigOk : AIGigRecommender.estimate_client_quality gigOk = 11/12 := by
  norm_num [AIGigRecommender.estimate_client_quality, gigOk, max_def, min_def]

theorem hcomp_gigOk : recEqRates.estimate_competition gigOk = .ok 0 := by
  simp only [AIGigRecommender.estimate_competition, hrm_gigOk, hsm_gigOk, Bind.bind, Except.bind]
  norm_num [gigOk, Pure.pure, Except.pure]

theorem hwp_gigOk : recEqRates.predict_win_probability gigOk 1 0 = 89/100 := by
  norm_num [AIGigRecommender.predict_win_probability, recEqRates, AIGigRecommender.init,
    profEqRates, max_def, min_def]

theorem hbid_gigOk : recEqRates.calculate_optimal_bid gigOk (89/100) = 40 := by
  norm_num [AIGigRecommender.calculate_optimal_bid, recEqRates, AIGigRecommender.init,
    profEqRates, gigOk, optNoneNeSome]

theorem hscore_gigOk :
    AIGigRecommender.calculate_recommendation_score 1 1 (11/12) 0 (89/100) = 239/250 := by
  norm_num [AIGigRecommender.calculate_recommendation_score, recWeights, pyRound, rhe, max_def]

theorem hreason_gigOk :
    AIGigRecommender.generate_reasoning gigOk 1 1 (11/12) 0 (89/100) =
      ["✅ Excellent skill match (100%)", "💰 Excellent budget alignment",
       "⭐ High-quality client with good reviews", "🎯 Low competition - great opportunity!",
       "📈 High win probability (89%)"] := by
  norm_num [AIGigRecommender.generate_reasoning, fmt0, rhe]
  exact ⟨rfl, rfl⟩

theorem hrisk_gigOk : AIGigRecommender.assess_risk_level (11/12) 0 (89/100) = "low" := by
  norm_num [AIGigRecommender.assess_risk_level]

theorem happr_gigOk : AIGigRecommender.suggest_approach gigOk (89/100) 0 =
    "Submit a strong proposal highlighting your expertise. You have a great chance!" := by
  norm_num [AIGigRecommender.suggest_approach]

theorem hscoreGig_gigOk : recEqRates.scoreGig gigOk = Except.ok gigOkRec := by
  simp only [AIGigRecommender.scoreGig, hrm_gigOk, hsm_gigOk, hcomp_gigOk, Bind.bind, Except.bind]
  simp only [hcq_gigOk, hwp_gigOk, hbid_gigOk, hscore_gigOk, hreason_gigOk, hrisk_gigOk,
    happr_gigOk, Pure.pure, Except.pure]
  simp only [gigOk, gigOkRec, Option.getD]

theorem hne_gigOk2 : ¬ ((gigOk2.skills_required.map pyLower).toFinset = (∅ : Finset String)) :=
  of_decide_eq_true (Eq.refl true)

theorem hrm_gigOk2 : recEqRates.calculate_rate_compatibility gigOk2 = .ok 1 := by
  norm_num [AIGigRecommender.calculate_rate_compatibility, recEqRates, AIGigRecommender.init,
    profEqRates, gigOk2, gigOk, pydiv, optNoneNeSome]

theorem hsm_gigOk2 : recEqRates.calculate_skill_match gigOk2 = 1 := by
  simp only [AIGigRecommender.calculate_skill_match, if_neg hne_gigOk2]
  rw [show (gigOk2.skills_required.map pyLower).toFinset.card = 1 from rfl]
  rw [show (recEqRates.user_skills ∩ (gigOk2.skills_required.map pyLower).toFinset).card = 1
    from rfl]
  rw [show (recEqRates.user_skills \ (gigOk2.skills_required.map pyLower).toFinset).card = 0
    from rfl]
  norm_num [min_def]

theorem hcq_gigOk2 : AIGigRecommender.estimate_client_quality gigOk2 = 11/12 := by
  norm_num [AIGigRecommender.estimate_client_quality, gigOk2, gigOk, max_def, min_def]

theorem hcomp_gigOk2 : recEqRates.estimate_competition gigOk2 = .ok 0 := by
  simp only [AIGigRecommender.estimate_competition, hrm_gigOk2, hsm_gigOk2, Bind.bind,
    Except.bind]
  norm_num [gigOk2, gigOk, Pure.pure, Except.pure]

theorem hwp_gigOk2 : recEqRates.predict_win_probability gigOk2 1 0 = 89/100 := by
  norm_num [AIGigRecommender.predict_win_probability, recEqRates, AIGigRecommender.init,
    profEqRates, max_def, min_def]

theorem hbid_gigOk2 : recEqRates.calculate_optimal_bid gigOk2 (89/100) = 40 := by
  norm_num [AIGigRecommender.calculate_optimal_bid, recEqRates, AIGigRecommender.init,
    profEqRates, gigOk2, gigOk, optNoneNeSome]

theorem hreason_gigOk2 :
    AIGigRecommender.generate_reasoning gigOk2 1 1 (11/12) 0 (89/100) =
      ["✅ Excellent skill match (100%)", "💰 Excellent budget alignment",
       "⭐ High-quality client with good reviews", "🎯 Low competition - great opportunity!",
       "📈 High win probability (89%)"] := by
  norm_num [AIGigRecommender.generate_reasoning, fmt0, rhe]
  exact ⟨rfl, rfl⟩

theorem happr_gigOk2 : AIGigRecommender.suggest_approach gigOk2 (89/100) 0 =
    "Submit a strong proposal highlighting your expertise. You have a great chance!" := by
  norm_num [AIGigRecommender.suggest_approach]

theorem hscoreGig_gigOk2 : recEqRates.scoreGig gigOk2 = Except.ok gigOkRec2 := by
  simp only [AIGigRecommender.scoreGig, hrm_gigOk2, hsm_gigOk2, hcomp_gigOk2, Bind.bind,
    Except.bind]
  simp only [hcq_gigOk2, hwp_gigOk2, hbid_gigOk2, hscore_gigOk, hreason_gigOk2, hrisk_gigOk,
    happr_gigOk2, Pure.pure, Except.pure]
  simp only [gigOk2, gigOk, gigOkRec2, gigOkRec, Option.getD]

theorem hrm_gigRaising :
    recEqRates.calculate_rate_compatibility gigRaising = .error PyExn.zeroDivision := by
  norm_num [AIGigRecommender.calculate_rate_compatibility, recEqRates, AIGigRecommender.init,
    profEqRates, gigRaising, pydiv, optNoneNeSome, Except.map]

theorem hscoreGig_gigRaising :
    recEqRates.scoreGig gigRaising = Except.error PyExn.zeroDivision := by
  simp only [AIGigRecommender.scoreGig, hrm_gigRaising, Bind.bind, Except.bind]

theorem hscored_pair :
    recEqRates.scored [gigOk, gigOk2] = [gigOkRec, gigOkRec2] := by
  simp only [AIGigRecommender.scored, List.filterMap_cons, List.filterMap_nil,
    hscoreGig_gigOk, hscoreGig_gigOk2, Except.toOption]

theorem hpair_sorted :
    List.Pairwise (fun a b => recLE a b = true) [gigOkRec, gigOkRec2] := by
  refine List.pairwise_cons.mpr ⟨?_, List.pairwise_singleton _ _⟩
  intro b hb
  rw [List.mem_singleton] at hb
  subst hb
  show recLE gigOkRec gigOkRec2 = true
  simp only [recLE, gigOkRec, gigOkRec2, decide_eq_true_eq]
  norm_num

theorem hrec_take1 :
    recEqRates.recommend_gigs [gigOk, gigOk2] 1 = [gigOkRec] := by
  simp only [AIGigRecommender.recommend_gigs, hscored_pair]
  rw [List.mergeSort_of_sorted hpair_sorted]
  rfl

theorem hprice_concrete :
    (SmartPricingEngine.calculate_optimal_price gigPricing profPricing).optimal_price =
      143491/100 := by
  norm_num [SmartPricingEngine.calculate_optimal_price, SmartPricingEngine.optimalPriceRaw,
    SmartPricingEngine.calculate_skill_premium, gigPricing, profPricing, pyRound, rhe,
    max_def, min_def, List.foldl]

theorem hprice_high :
    (SmartPricingEngine.calculate_optimal_price gigPricing profHighFloor).optimal_price =
      2000 := by
  norm_num [SmartPricingEngine.calculate_optimal_price, SmartPricingEngine.optimalPriceRaw,
    SmartPricingEngine.calculate_skill_premium, gigPricing, profHighFloor, pyRound, rhe,
    max_def, min_def, List.foldl]

/-! ### The claims -/

/-- C1 (amended): every gig that scores without error contributes its
recommendation to the list of scored recommendations, even when other gigs in
the batch raise (those are skipped and processing continues; `recommend_gigs`
is a total function, so no per-gig exception reaches the caller); the returned
list is the top-`top_n` prefix of the sorted scored list, so it contains the
recommendation of every ok-scored gig whenever `top_n` is at least the batch
size.  (As stated, the claim fails because of the top-N truncation; see the
counterexample.) -/
theorem C1_partial_failure_isolation (rec : AIGigRecommender) (gigs : List Gig) (top_n : ℕ)
    (gig : Gig) (r : GigRecommendation) (hg : gig ∈ gigs)
    (hok : rec.scoreGig gig = Except.ok r) :
    r ∈ rec.scored gigs ∧ (gigs.length ≤ top_n → r ∈ rec.recommend_gigs gigs top_n) := by
  have hmem : r ∈ rec.scored gigs := by
    simp only [AIGigRecommender.scored]
    refine List.mem_filterMap.mpr ⟨gig, hg, ?_⟩
    rw [hok]
    rfl
  refine ⟨hmem, fun hn => ?_⟩
  simp only [AIGigRecommender.recommend_gigs]
  have hlen : ((rec.scored gigs).mergeSort recLE).length = (rec.scored gigs).length :=
    List.length_mergeSort (rec.scored gigs)
  have hle : (rec.scored gigs).length ≤ gigs.length := List.length_filterMap_le _ _
  rw [List.take_of_length_le (by rw [hlen]; exact le_trans hle hn)]
  exact List.mem_mergeSort.mpr hmem

/-- C1 counterexample: with two gigs that both score without error and
`top_n = 1`, the second gig's recommendation (`gigOkRec2`, for the gig with id
"B") is truncated away, so the returned list does NOT contain a recommendation
for every gig that scored without error. -/
theorem C1_counterexample :
    recEqRates.scoreGig gigOk2 = Except.ok gigOkRec2 ∧
    recEqRates.recommend_gigs [gigOk, gigOk2] 1 = [gigOkRec] ∧
    gigOkRec2 ∉ [gigOkRec] := by
  refine ⟨hscoreGig_gigOk2, hrec_take1, ?_⟩
  simp [gigOkRec, gigOkRec2]

/-- Witness for C1: in a batch where the first gig raises `ZeroDivisionError`
and the second scores fine, the second gig's recommendation is in the returned
list (`top_n = 2` covers the batch). -/
theorem C1_witness :
    recEqRates.scoreGig gigRaising = Except.error PyExn.zeroDivision ∧
    recEqRates.scoreGig gigOk = Except.ok gigOkRec ∧
    gigOkRec ∈ recEqRates.recommend_gigs [gigRaising, gigOk] 2 := by
  refine ⟨hscoreGig_gigRaising, hscoreGig_gigOk, ?_⟩
  exact (C1_partial_failure_isolation recEqRates [gigRaising, gigOk] 2 gigOk gigOkRec
    (by simp) hscoreGig_gigOk).2 (by norm_num)

/-- C2 counterexample: at `skill_match = 1/3` (all other sub-scores 0 and
competition 50) the recommendation score is `round(1/12, 3) = 0.083`, not the
exact weighted sum `1/12`, because the source rounds the score to 3 decimals. -/
theorem C2_counterexample :
    (0:ℚ) ≤ 1/3 ∧ (1/3:ℚ) ≤ 1 ∧
    AIGigRecommender.calculate_recommendation_score (1/3) 0 0 50 0 ≠
      25/100 * (1/3) + 20/100 * 0 + 20/100 * 0 + 25/100 * 0 +
        10/100 * max 0 (1 - ((50 : ℕ) : ℚ) / 50) := by
  refine ⟨by norm_num, by norm_num, ?_⟩
  norm_num [AIGigRecommender.calculate_recommendation_score, recWeights, pyRound, rhe, max_def]

/-- C2 (amended): for sub-scores in [0,1] and a natural competition count, the
recommendation score equals the weighted sum
`0.25*skill + 0.20*rate + 0.20*client + 0.25*win + 0.10*max(0, 1 - competition/50)`
rounded to 3 decimals (ties to even); the five weights sum to 1; and the score
lies in [0,1]. -/
theorem C2_recommendation_score (skill_match rate_match client_quality win_prob : ℚ)
    (competition : ℕ)
    (hs1 : 0 ≤ skill_match) (hs2 : skill_match ≤ 1)
    (hr1 : 0 ≤ rate_match) (hr2 : rate_match ≤ 1)
    (hc1 : 0 ≤ client_quality) (hc2 : client_quality ≤ 1)
    (hw1 : 0 ≤ win_prob) (hw2 : win_prob ≤ 1) :
    AIGigRecommender.calculate_recommendation_score skill_match rate_match client_quality
        competition win_prob =
      pyRound 3 (25/100 * skill_match + 20/100 * rate_match + 20/100 * client_quality +
        25/100 * win_prob + 10/100 * max 0 (1 - (competition : ℚ) / 50)) ∧
    recWeights.skill_match + recWeights.rate_match + recWeights.client_quality +
      recWeights.win_probability + recWeights.competition = 1 ∧
    0 ≤ AIGigRecommender.calculate_recommendation_score skill_match rate_match client_quality
        competition win_prob ∧
    AIGigRecommender.calculate_recommendation_score skill_match rate_match client_quality
        competition win_prob ≤ 1 := by
  have hcs0 : (0:ℚ) ≤ max 0 (1 - (competition : ℚ) / 50) := le_max_left _ _
  have hcs1 : max 0 (1 - (competition : ℚ) / 50) ≤ 1 := by
    refine max_le (by norm_num) ?_
    have h50 : (0:ℚ) ≤ (competition : ℚ) / 50 := by positivity
    linarith
  have heq : AIGigRecommender.calculate_recommendation_score skill_match rate_match
      client_quality competition win_prob =
      pyRound 3 (25/100 * skill_match + 20/100 * rate_match + 20/100 * client_quality +
        25/100 * win_prob + 10/100 * max 0 (1 - (competition : ℚ) / 50)) := by
    simp only [AIGigRecommender.calculate_recommendation_score, recWeights]
  have h0 : 0 ≤ 25/100 * skill_match + 20/100 * rate_match + 20/100 * client_quality +
      25/100 * win_prob + 10/100 * max 0 (1 - (competition : ℚ) / 50) := by linarith
  have h1 : 25/100 * skill_match + 20/100 * rate_match + 20/100 * client_quality +
      25/100 * win_prob + 10/100 * max 0 (1 - (competition : ℚ) / 50) ≤ 1 := by linarith
  refine ⟨heq, by norm_num [recWeights], ?_, ?_⟩
  · rw [heq]
    exact (pyRound_unit_bounds 3 h0 h1).1
  · rw [heq]
    exact (pyRound_unit_bounds 3 h0 h1).2

/-- Witness for C2 at all sub-scores `0.5`, competition 10. -/
theorem C2_witness :
    0 ≤ AIGigRecommender.calculate_recommendation_score (5/10) (5/10) (5/10) 10 (5/10) ∧
    AIGigRecommender.calculate_recommendation_score (5/10) (5/10) (5/10) 10 (5/10) ≤ 1 := by
  have h := C2_recommendation_score (5/10) (5/10) (5/10) (5/10) 10 (by norm_num) (by norm_num)
    (by norm_num) (by norm_num) (by norm_num) (by norm_num) (by norm_num) (by norm_num)
  exact ⟨h.2.2.1, h.2.2.2⟩

/-- C3 counterexample: the claim "client_quality is monotonically non-decreasing
in rating for r1 ≤ r2 in [0,5], reviews fixed" fails at `r1 = 0, r2 = 1`
(reviews fixed at 10): a zero rating is treated as "unrated" and scores the
neutral `0.5`, while a rating of `1` scores `0`. -/
theorem C3_counterexample :
    (0 : ℚ) ≤ 0 ∧ (0 : ℚ) ≤ 1 ∧ (1 : ℚ) ≤ 5 ∧
    ¬ (AIGigRecommender.estimate_client_quality { client_rating := 0, client_reviews := 10 } ≤
        AIGigRecommender.estimate_client_quality { client_rating := 1, client_reviews := 10 }) := by
  refine ⟨le_refl 0, by norm_num, by norm_num, ?_⟩
  rw [show AIGigRecommender.estimate_client_quality
      { client_rating := 0, client_reviews := 10 } = 1/2 from by
    norm_num [AIGigRecommender.estimate_client_quality, max_def, min_def]]
  rw [show AIGigRecommender.estimate_client_quality
      { client_rating := 1, client_reviews := 10 } = 0 from by
    norm_num [AIGigRecommender.estimate_client_quality, max_def, min_def]]
  norm_num

/-- C3 (amended): for a fixed review count the client-quality score is
monotonically non-decreasing in the client rating over positive ratings
`0 < r1 ≤ r2 ≤ 5`; a rating of exactly `0` means "unrated" and is scored
separately as a neutral `0.5`, which breaks monotonicity at `0` (see the
counterexample). -/
theorem C3_client_quality_monotone (g1 g2 : Gig)
    (hrev : g1.client_reviews = g2.client_reviews)
    (h0 : 0 < g1.client_rating) (h12 : g1.client_rating ≤ g2.client_rating)
    (_h5 : g2.client_rating ≤ 5) :
    AIGigRecommender.estimate_client_quality g1 ≤
      AIGigRecommender.estimate_client_quality g2 := by
  have h1 : g1.client_rating ≠ 0 := ne_of_gt h0
  have h2 : g2.client_rating ≠ 0 := ne_of_gt (lt_of_lt_of_le h0 h12)
  simp only [AIGigRecommender.estimate_client_quality]
  rw [if_pos h1, if_pos h2, hrev]
  have hb : (g1.client_rating - 35/10) / (15/10) ≤ (g2.client_rating - 35/10) / (15/10) := by
    linarith
  exact max_le_max le_rfl (min_le_min le_rfl (by linarith))

/-- Witness for C3: a client rated 4 (10 reviews) scores no higher than one
rated 5 (10 reviews). -/
theorem C3_witness :
    AIGigRecommender.estimate_client_quality { client_rating := 4, client_reviews := 10 } ≤
      AIGigRecommender.estimate_client_quality { client_rating := 5, client_reviews := 10 } :=
  C3_client_quality_monotone _ _ rfl (by norm_num) (by norm_num) (by norm_num)

/-- C4 counterexample: `rate_min ≤ rate_max` (as the claim assumes) is not
enough for the branch formulas to be returned: with `rate_min = rate_max = 40`
and a fixed-price gig of effective hourly rate exactly `40`, the in-range
branch divides by `rate_max - rate_min = 0` and raises instead of returning
`0.8 + 0.2*(...)`. -/
theorem C4_counterexample :
    recEqRates.user_rate_min ≤ recEqRates.user_rate_max ∧
    recEqRates.calculate_rate_compatibility gigFixed1600 = Except.error PyExn.zeroDivision := by
  constructor
  · norm_num [recEqRates, AIGigRecommender.init, profEqRates]
  · norm_num [AIGigRecommender.calculate_rate_compatibility, recEqRates, AIGigRecommender.init,
      profEqRates, gigFixed1600, pydiv, Except.map]

/-- C4 (amended): for every profile with `rate_min < rate_max` (strictly) and
every gig with a nonnegative budget, the rate-compatibility computation returns
(without raising) exactly the spec's branch formula `rate_match_spec`
(0.5 with no budget; `max(0, effective/rate_min)` below range; 1.0 above range;
`0.8 + 0.2*(effective-rate_min)/(rate_max-rate_min)` in range), and the value
lies in [0,1]. -/
theorem C4_rate_match (rec : AIGigRecommender) (gig : Gig)
    (hlt : rec.user_rate_min < rec.user_rate_max) (hb : 0 ≤ gig.budget_max) :
    rec.calculate_rate_compatibility gig =
      Except.ok (rate_match_spec rec.user_rate_min rec.user_rate_max gig) ∧
    (gig.budget_max = 0 → rate_match_spec rec.user_rate_min rec.user_rate_max gig = 5/10) ∧
    0 ≤ rate_match_spec rec.user_rate_min rec.user_rate_max gig ∧
    rate_match_spec rec.user_rate_min rec.user_rate_max gig ≤ 1 :=
  ⟨rateCompat_eq_spec rec gig hlt hb,
   fun hz => by simp [rate_match_spec, hz],
   (rate_match_spec_bounds _ _ _ hlt hb).1,
   (rate_match_spec_bounds _ _ _ hlt hb).2⟩

/-- Witness for C4: the spec's worked example — rates 50..100, fixed-price gig
with budget 3200 (effective hourly 80, in range) scores
`0.8 + 0.2*(80-50)/50 = 0.92`. -/
theorem C4_witness :
    recFifty.calculate_rate_compatibility gigFixed3200 = Except.ok (92/100) := by
  have h := (C4_rate_match recFifty gigFixed3200
    (by norm_num [recFifty, AIGigRecommender.init, profFifty])
    (by norm_num [gigFixed3200])).1
  rw [h]
  norm_num [rate_match_spec, recFifty, AIGigRecommender.init, profFifty, gigFixed3200, max_def]

/-- C5: for every profile skill set and required-skill sequence, the skill
match is in [0,1]; it is exactly 0.5 when the (case-insensitively lowered,
deduplicated) required set is empty, and otherwise equals
`min(1, |profile ∩ required|/|required| + min(0.2, 0.05*|profile \ required|))`
on the lowered sets. -/
theorem C5_skill_match (p : UserProfile) (gig : Gig) :
    (0 ≤ (AIGigRecommender.init p).calculate_skill_match gig ∧
      (AIGigRecommender.init p).calculate_skill_match gig ≤ 1) ∧
    ((gig.skills_required.map pyLower).toFinset = ∅ →
      (AIGigRecommender.init p).calculate_skill_match gig = 5/10) ∧
    ((gig.skills_required.map pyLower).toFinset ≠ ∅ →
      (AIGigRecommender.init p).calculate_skill_match gig =
        min 1 ((((p.skills.map pyLower).toFinset ∩
            (gig.skills_required.map pyLower).toFinset).card : ℚ) /
            ((gig.skills_required.map pyLower).toFinset.card : ℚ) +
          min (2/10) ((((p.skills.map pyLower).toFinset \
            (gig.skills_required.map pyLower).toFinset).card : ℚ) * (5/100)))) := by
  refine ⟨?_, skill_match_of_empty _ gig, skill_match_formula p gig⟩
  by_cases hR : (gig.skills_required.map pyLower).toFinset = ∅
  · rw [skill_match_of_empty _ gig hR]
    norm_num
  · rw [skill_match_formula p gig hR]
    have hbase : 0 ≤ (((p.skills.map pyLower).toFinset ∩
        (gig.skills_required.map pyLower).toFinset).card : ℚ) /
        ((gig.skills_required.map pyLower).toFinset.card : ℚ) := by positivity
    have hbonus : 0 ≤ min ((2:ℚ)/10) ((((p.skills.map pyLower).toFinset \
        (gig.skills_required.map pyLower).toFinset).card : ℚ) * (5/100)) :=
      le_min (by norm_num) (by positivity)
    constructor
    · exact le_min (by norm_num) (by linarith)
    · exact min_le_left _ _

/-- Witness for C5: profile {Python} against required {python, ml} scores
`min(1, 1/2 + min(0.2, 0)) = 0.5`. -/
theorem C5_witness :
    (AIGigRecommender.init profPy).calculate_skill_match gigPyMl = 5/10 := by
  have h := (C5_skill_match profPy gigPyMl).2.2 (of_decide_eq_true (Eq.refl true))
  rw [h]
  rw [show ((profPy.skills.map pyLower).toFinset ∩
    (gigPyMl.skills_required.map pyLower).toFinset).card = 1 from rfl]
  rw [show (gigPyMl.skills_required.map pyLower).toFinset.card = 2 from rfl]
  rw [show ((profPy.skills.map pyLower).toFinset \
    (gigPyMl.skills_required.map pyLower).toFinset).card = 0 from rfl]
  norm_num [min_def]

/-- C6 counterexample: the pricing-example gig (`budget_min=800,
budget_max=1500, competition=3, success_rate=0.9`) priced for a profile whose
floor rate is 2000 yields `optimal_price = 2000 > 1650 = budget_max*1.1`,
because the source applies the floor-rate `max` after the budget clamp; so the
claimed interval `[budget_min, budget_max*1.1]` is violated. -/
theorem C6_counterexample :
    gigPricing.budget_min = 800 ∧ gigPricing.budget_max = 1500 ∧
    gigPricing.proposals_count = 3 ∧ profHighFloor.success_rate / 100 = 9/10 ∧
    ¬ ((SmartPricingEngine.calculate_optimal_price gigPricing profHighFloor).optimal_price ≤
        gigPricing.budget_max * (11/10)) := by
  refine ⟨rfl, rfl, rfl, by norm_num [profHighFloor], ?_⟩
  rw [hprice_high]
  norm_num [gigPricing]

/-- C6 (amended): when the budget is known (`0 < budget_max`,
`budget_min ≤ budget_max`) and the profile's floor rate is at most
`budget_max*1.1`, the price computed before the final 2-decimal rounding lies
in `[budget_min, budget_max*1.1]` and is at least the floor rate; the returned
`optimal_price` is that value rounded to 2 decimals, hence within `1/200` of
the interval; and for the spec's concrete example (`800/1500/3/0.9`, default
rates) the returned price lies in `[800, 1650]`. -/
theorem C6_optimal_price (gig : Gig) (p : UserProfile)
    (hb0 : 0 < gig.budget_max) (hbm : gig.budget_min ≤ gig.budget_max)
    (hfl : p.hourly_rate_min ≤ gig.budget_max * (11/10)) :
    gig.budget_min ≤ SmartPricingEngine.optimalPriceRaw gig p ∧
    SmartPricingEngine.optimalPriceRaw gig p ≤ gig.budget_max * (11/10) ∧
    p.hourly_rate_min ≤ SmartPricingEngine.optimalPriceRaw gig p ∧
    (SmartPricingEngine.calculate_optimal_price gig p).optimal_price =
      pyRound 2 (SmartPricingEngine.optimalPriceRaw gig p) ∧
    gig.budget_min - 1/200 ≤ (SmartPricingEngine.calculate_optimal_price gig p).optimal_price ∧
    (SmartPricingEngine.calculate_optimal_price gig p).optimal_price ≤
      gig.budget_max * (11/10) + 1/200 ∧
    800 ≤ (SmartPricingEngine.calculate_optimal_price gigPricing profPricing).optimal_price ∧
    (SmartPricingEngine.calculate_optimal_price gigPricing profPricing).optimal_price ≤ 1650 := by
  have hz : gig.budget_max ≠ 0 := ne_of_gt hb0
  have hcap : gig.budget_max ≤ gig.budget_max * (11/10) := by linarith
  have hbc : gig.budget_min ≤ gig.budget_max * (11/10) := le_trans hbm hcap
  have hb1 : gig.budget_min ≤ SmartPricingEngine.optimalPriceRaw gig p ∧
      SmartPricingEngine.optimalPriceRaw gig p ≤ gig.budget_max * (11/10) ∧
      p.hourly_rate_min ≤ SmartPricingEngine.optimalPriceRaw gig p := by
    simp only [SmartPricingEngine.optimalPriceRaw, if_pos hz]
    exact clamp_bounds _ _ _ _ hbc hfl
  have heq : (SmartPricingEngine.calculate_optimal_price gig p).optimal_price =
      pyRound 2 (SmartPricingEngine.optimalPriceRaw gig p) := rfl
  refine ⟨hb1.1, hb1.2.1, hb1.2.2, heq, ?_, ?_, ?_, ?_⟩
  · rw [heq]
    have h := pyRound2_ge (SmartPricingEngine.optimalPriceRaw gig p)
    linarith [hb1.1]
  · rw [heq]
    have h := pyRound2_le (SmartPricingEngine.optimalPriceRaw gig p)
    linarith [hb1.2.1]
  · rw [hprice_concrete]
    norm_num
  · rw [hprice_concrete]
    norm_num

/-- Witness for C6: the spec's concrete pricing example falls within
`[800, 1650]`. -/
theorem C6_witness :
    800 ≤ (SmartPricingEngine.calculate_optimal_price gigPricing profPricing).optimal_price ∧
    (SmartPricingEngine.calculate_optimal_price gigPricing profPricing).optimal_price ≤ 1650 := by
  have h := C6_optimal_price gigPricing profPricing (by norm_num [gigPricing])
    (by norm_num [gigPricing]) (by norm_num [gigPricing, profPricing])
  exact ⟨h.2.2.2.2.2.2.1, h.2.2.2.2.2.2.2⟩

/-- C7: ranking is deterministic (a pure function: identical inputs give the
identical list), the output is sorted by recommendation score in descending
order, it is exactly the `top_n`-prefix of a stable merge sort of the scored
recommendations, and ties are broken stably by input order (any
already-sorted sublist of the scored list — in particular any run of equal
scores — survives as a sublist of the sort). -/
theorem C7_ranking (rec : AIGigRecommender) (gigs : List Gig) (top_n : ℕ) :
    rec.recommend_gigs gigs top_n = rec.recommend_gigs gigs top_n ∧
    (rec.recommend_gigs gigs top_n).Pairwise
      (fun a b => b.recommendation_score ≤ a.recommendation_score) ∧
    rec.recommend_gigs gigs top_n = ((rec.scored gigs).mergeSort recLE).take top_n ∧
    (∀ c : List GigRecommendation, c.Pairwise (fun a b => recLE a b = true) →
      c.Sublist (rec.scored gigs) → c.Sublist ((rec.scored gigs).mergeSort recLE)) := by
  have htrans : ∀ a b c : GigRecommendation, recLE a b → recLE b c → recLE a c := by
    intro a b c hab hbc
    simp only [recLE, decide_eq_true_eq] at *
    exact le_trans hbc hab
  have htotal : ∀ a b : GigRecommendation, recLE a b || recLE b a := by
    intro a b
    simp only [recLE, Bool.or_eq_true, decide_eq_true_eq]
    exact le_total _ _
  refine ⟨rfl, ?_, rfl, ?_⟩
  · have hs := List.sorted_mergeSort htrans htotal (rec.scored gigs)
    have hst := List.Pairwise.sublist
      (List.take_sublist top_n ((rec.scored gigs).mergeSort recLE)) hs
    refine hst.imp ?_
    intro a b h
    simpa [recLE, decide_eq_true_eq] using h
  · intro c hp hsub
    exact List.sublist_mergeSort htrans htotal hp hsub

/-- Witness for C7 (its stability clause, at the empty sorted sublist of a
concrete scored list). -/
theorem C7_witness :
    ([] : List GigRecommendation).Sublist
      ((recDefaultRates.scored [gigA, gigB]).mergeSort recLE) :=
  (C7_ranking recDefaultRates [gigA, gigB] 1).2.2.2 [] List.Pairwise.nil (List.nil_sublist _)

/-- C8: the win probability equals the clamp to [0.05, 0.95] of
`0.4*skill_match + competition tier + 0.2*success_rate + min(0.1, years/100)`,
and always lies in [0.05, 0.95]. -/
theorem C8_win_probability (rec : AIGigRecommender) (gig : Gig) (skill_match : ℚ)
    (competition : ℕ) (_h1 : 0 ≤ skill_match) (_h2 : skill_match ≤ 1)
    (_h3 : 0 ≤ rec.success_rate) (_h4 : rec.success_rate ≤ 1)
    (_h5 : 0 ≤ rec.user_experience) :
    rec.predict_win_probability gig skill_match competition =
      min (95/100) (max (5/100)
        (4/10 * skill_match +
          (if competition < 5 then 3/10
           else if competition < 10 then 2/10
           else if competition < 20 then 1/10
           else (5/100 : ℚ)) +
          2/10 * rec.success_rate + min (1/10) (rec.user_experience / 100))) ∧
    5/100 ≤ rec.predict_win_probability gig skill_match competition ∧
    rec.predict_win_probability gig skill_match competition ≤ 95/100 := by
  refine ⟨?_, ?_, ?_⟩
  · simp only [AIGigRecommender.predict_win_probability]
    ring_nf
  · simp only [AIGigRecommender.predict_win_probability]
    exact le_min (by norm_num) (le_max_left _ _)
  · simp only [AIGigRecommender.predict_win_probability]
    exact min_le_left _ _

/-- Witness for C8 at skill match 1, competition 0, the default profile. -/
theorem C8_witness :
    5/100 ≤ recDefaultRates.predict_win_probability gigA 1 0 ∧
    recDefaultRates.predict_win_probability gigA 1 0 ≤ 95/100 := by
  have h := C8_win_probability recDefaultRates gigA 1 0 (by norm_num) (by norm_num)
    (by norm_num [recDefaultRates, AIGigRecommender.init, profDefaultRates])
    (by norm_num [recDefaultRates, AIGigRecommender.init, profDefaultRates])
    (by norm_num [recDefaultRates, AIGigRecommender.init, profDefaultRates])
  exact ⟨h.2.1, h.2.2⟩

/-- C9: when no gig in the corpus requires the skill (case-insensitively),
`analyze_skill_demand` returns the explicit sentinel insight — demand 0.0,
average rate 0.0, competition level "unknown", no top platforms (and trend
"unknown") — rather than an error; the embedding is a total function, so no
exception is possible. -/
theorem C9_no_match_sentinel (skill : String) (gigs : List Gig)
    (h : ∀ gig ∈ gigs, pyLower skill ∉ gig.skills_required.map pyLower) :
    (MarketIntelligence.analyze_skill_demand skill gigs).demand_score = 0 ∧
    (MarketIntelligence.analyze_skill_demand skill gigs).average_rate = 0 ∧
    (MarketIntelligence.analyze_skill_demand skill gigs).competition_level = "unknown" ∧
    (MarketIntelligence.analyze_skill_demand skill gigs).top_platforms = [] ∧
    (MarketIntelligence.analyze_skill_demand skill gigs).rate_trend = "unknown" := by
  have hf : gigs.filter
      (fun gig => (gig.skills_required.map pyLower).contains (pyLower skill)) = [] := by
    rw [List.filter_eq_nil_iff]
    intro g hg
    simpa using h g hg
  simp only [MarketIntelligence.analyze_skill_demand]
  rw [hf]
  simp

/-- Witness for C9: no gig in `[gigPythonOnly]` requires "rust". -/
theorem C9_witness :
    (MarketIntelligence.analyze_skill_demand "rust" [gigPythonOnly]).demand_score = 0 ∧
    (MarketIntelligence.analyze_skill_demand "rust" [gigPythonOnly]).top_platforms = [] := by
  have h := C9_no_match_sentinel "rust" [gigPythonOnly]
    (fun g hg => by
      rw [List.mem_singleton] at hg
      subst hg
      exact of_decide_eq_true (Eq.refl true))
  exact ⟨h.1, h.2.2.2.1⟩

/-- C10 counterexample: `rate_min < rate_max` alone does NOT make the
computation total for every gig: with `rate_min = 0 < 1 = rate_max` and a gig
with negative `budget_max = -1` (truthy in Python, so not the "no budget"
case), the below-range branch divides by `rate_min = 0` and raises. -/
theorem C10_counterexample :
    recZeroMin.user_rate_min < recZeroMin.user_rate_max ∧
    recZeroMin.calculate_rate_compatibility gigNegBudget = Except.error PyExn.zeroDivision := by
  constructor
  · norm_num [recZeroMin, AIGigRecommender.init]
  · norm_num [AIGigRecommender.calculate_rate_compatibility, recZeroMin, AIGigRecommender.init,
      gigNegBudget, pydiv, optNoneNeSome, Except.map]

/-- C10 (amended): under `rate_min < rate_max` and a nonnegative gig budget the
rate-compatibility computation is total (returns ok); the data model's weaker
invariant `rate_min ≤ rate_max` does not suffice: with
`rate_min = rate_max = 40 > 0` and a gig of effective hourly rate exactly 40,
the in-range branch divides by `rate_max - rate_min = 0` and raises. -/
theorem C10_rate_compat_totality (rec : AIGigRecommender) (gig : Gig)
    (hlt : rec.user_rate_min < rec.user_rate_max) (hb : 0 ≤ gig.budget_max) :
    (rec.calculate_rate_compatibility gig).isOk = true ∧
    recEqRates.user_rate_min = recEqRates.user_rate_max ∧
    0 < recEqRates.user_rate_min ∧
    recEqRates.calculate_rate_compatibility gigRaising = Except.error PyExn.zeroDivision := by
  refine ⟨?_, by norm_num [recEqRates, AIGigRecommender.init, profEqRates],
    by norm_num [recEqRates, AIGigRecommender.init, profEqRates], hrm_gigRaising⟩
  rw [rateCompat_eq_spec rec gig hlt hb]
  rfl

/-- Witness for C10: a default-rate recommender scores the hourly gig `gigA`
without raising. -/
theorem C10_witness :
    (recDefaultRates.calculate_rate_compatibility gigA).isOk = true :=
  (C10_rate_compat_totality recDefaultRates gigA
    (by norm_num [recDefaultRates, AIGigRecommender.init, profDefaultRates])
    (by norm_num [gigA])).1
